import Mathlib

/-!
Shallow embedding of the `async-mq` client messaging layer:
`src/message.rs` (Message, MessageError, default hooks),
`src/produce.rs` (ProducerBuilder, Producer, ProducerExt) and
`src/publish.rs` (PublisherBuilder, Publisher).

The broker (lapin) is an external capability: each broker round-trip is
recorded as an operation in a trace, and its result is supplied by an
explicit environment (`BrokerEnv` for publish/consume/ack during a call,
`BuildEnv` for the channel/declare/consume round-trips during `build`).
Async suspension points become ordinary sequencing; byte vectors are
`List Nat`; `lapin::Result` is `Except Err`.
-/

namespace AsyncMq

/-- Broker-side error (`lapin::Error`), abstracted to a numeric code:
the core never inspects the error, it only propagates it. -/
structure Err where
  code : Nat
deriving DecidableEq

/-- A `lapin::Channel` handle, abstracted to an identifier. -/
abbrev Channel := Nat

/-- A `lapin::Consumer` (consume-stream) handle, abstracted to an identifier. -/
abbrev Consumer := Nat

/-- A `crate::Connection` handle, abstracted to an identifier. -/
abbrev Connection := Nat

/-- A declared `lapin::Queue`; the code only reads its `name()`. -/
structure Queue where
  name : String
deriving DecidableEq

/-- Embedding of `lapin::options::QueueDeclareOptions`. -/
structure QueueDeclareOptions where
  passive : Bool := false
  durable : Bool := false
  exclusive : Bool := false
  auto_delete : Bool := false
  nowait : Bool := false
deriving DecidableEq

/-- Embedding of `lapin::options::BasicPublishOptions`. -/
structure BasicPublishOptions where
  mandatory : Bool := false
  immediate : Bool := false
deriving DecidableEq

/-- Embedding of `lapin::options::BasicConsumeOptions`. -/
structure BasicConsumeOptions where
  no_local : Bool := false
  no_ack : Bool := false
  exclusive : Bool := false
  nowait : Bool := false
deriving DecidableEq

/-- Embedding of `lapin::options::BasicAckOptions`. -/
structure BasicAckOptions where
  multiple : Bool := false
deriving DecidableEq

/-- Embedding of `lapin::types::FieldTable` as an association list:
the code only constructs defaults and passes it through. -/
abbrev FieldTable := List (String × String)

/-- Embedding of `lapin::BasicProperties`, keeping the one metadata field
the core reads or sets: the `reply_to` queue name. -/
structure BasicProperties where
  reply_to : Option String := none
deriving DecidableEq

/-- Embedding of `BasicProperties::with_reply_to`. -/
def BasicProperties.with_reply_to (p : BasicProperties) (q : String) : BasicProperties :=
  { p with reply_to := some q }

/-- Embedding of `lapin::message::Delivery`: the fields the code reads. -/
structure Delivery where
  delivery_tag : Nat
  data : List Nat
  properties : BasicProperties := {}
deriving DecidableEq

/-! Embedding of `src/message.rs`. -/

/-- Embedding of `Message`, the newtype over `lapin::message::Delivery`. -/
structure Message where
  delivery : Delivery
deriving DecidableEq

/-- Embedding of `Message::data`. -/
def Message.data (m : Message) : List Nat :=
  m.delivery.data

/-- Embedding of `Message::delivery_tag`. -/
def Message.delivery_tag (m : Message) : Nat :=
  m.delivery.delivery_tag

/-- Embedding of `Message::reply_to`. -/
def Message.reply_to (m : Message) : Option String :=
  m.delivery.properties.reply_to

/-- Embedding of `MessageError`, the error actions for hook implementations. -/
inductive MessageError where
  | Drop : MessageError
  | Reject : MessageError
  | Nack : MessageError
deriving DecidableEq

/-- Embedding of the unit struct `NoopPeeker`. -/
structure NoopPeeker where
deriving DecidableEq

/-- Embedding of `MessagePeek::peek` for `NoopPeeker`: `Ok(())`. -/
def NoopPeeker.peek (_s : NoopPeeker) (_msg : Message) : Except MessageError Unit :=
  .ok ()

/-- Embedding of the unit struct `RejectPeeker`. -/
structure RejectPeeker where
deriving DecidableEq

/-- Embedding of `MessagePeek::peek` for `RejectPeeker`:
`Err(MessageError::Reject)`. -/
def RejectPeeker.peek (_s : RejectPeeker) (_msg : Message) : Except MessageError Unit :=
  .error .Reject

/-- Embedding of the unit struct `EchoProcessor`. -/
structure EchoProcessor where
deriving DecidableEq

/-- Embedding of `MessageProcess::process` for `EchoProcessor`:
`Ok(msg.data().to_vec())`. -/
def EchoProcessor.process (_s : EchoProcessor) (msg : Message) : Except MessageError (List Nat) :=
  .ok msg.data

/-! Broker operations and environments. -/

/-- One broker round-trip issued by the client code, with the arguments
the code passes (`basic_publish`, `consume.next()`, `basic_ack`; the
capability also offers `basic_nack` / `basic_reject`, which this code
never calls). -/
inductive BrokerOp where
  | basicPublish (ch : Channel) (ex : String) (routing_key : String)
      (opts : BasicPublishOptions) (payload : List Nat) (props : BasicProperties) : BrokerOp
  | consumeNext (c : Consumer) : BrokerOp
  | basicAck (ch : Channel) (delivery_tag : Nat) (opts : BasicAckOptions) : BrokerOp
  | basicNack (ch : Channel) (delivery_tag : Nat) : BrokerOp
  | basicReject (ch : Channel) (delivery_tag : Nat) : BrokerOp
deriving DecidableEq

/-- Broker responses for the round-trips one `rpc`/`publish` call makes:
the publish outcome, the next item on the consume stream (`none` when the
stream has ended), and the ack outcome. -/
structure BrokerEnv where
  publishResult : Except Err Unit
  nextDelivery : Option (Except Err Delivery)
  ackResult : Except Err Unit

/-- Does this operation acknowledge (ack, nack or reject) the given
delivery tag? -/
def BrokerOp.acksTag (tag : Nat) : BrokerOp → Bool
  | .basicAck _ t _ => t == tag
  | .basicNack _ t => t == tag
  | .basicReject _ t => t == tag
  | _ => false

/-- Is this operation an acknowledgment of any kind (ack, nack or reject)? -/
def BrokerOp.isAckKind : BrokerOp → Bool
  | .basicAck _ _ _ => true
  | .basicNack _ _ => true
  | .basicReject _ _ => true
  | _ => false

/-- Number of acknowledgment operations issued for a given delivery tag
in a trace. -/
def ackOpsFor (tag : Nat) (ops : List BrokerOp) : Nat :=
  (ops.filter (BrokerOp.acksTag tag)).length

/-! Embedding of `src/produce.rs`. -/

/-- Embedding of `DebugPrinter`'s `ProducerExt::recv`: prints the message
to stderr (an effect outside the model) and returns `Ok(())`. -/
def DebugPrinter.recv : List Nat → Except Err Unit :=
  fun _ => .ok ()

/-- Embedding of `Producer`: channel handles, the held consume stream,
routing configuration, properties and the installed `ProducerExt` hook
(the boxed trait object becomes a function on the payload bytes). -/
structure Producer where
  tx : Channel
  rx : Channel
  consume : Consumer
  ex : String
  queue : String
  tx_props : BasicProperties
  rx_props : BasicProperties
  tx_opts : BasicPublishOptions
  ack_opts : BasicAckOptions
  extension : List Nat → Except Err Unit

/-- Embedding of `Producer::recv`: run the hook on the delivery's data;
on hook success `basic_ack` the delivery (propagating an ack error);
on hook error do nothing and return `Ok(())`. -/
def Producer.recv (p : Producer) (env : BrokerEnv) (msg : Delivery) :
    Except Err Unit × List BrokerOp :=
  let delivery_tag := msg.delivery_tag
  match p.extension msg.data with
  | .ok () =>
      match env.ackResult with
      | .error err => (.error err, [.basicAck p.rx delivery_tag p.ack_opts])
      | .ok () => (.ok (), [.basicAck p.rx delivery_tag p.ack_opts])
  | .error _ => (.ok (), [])

/-- Embedding of `Producer::rpc`: `basic_publish` with the reply-to
properties, then await the next delivery on the held consume stream and
hand it to `recv`; a stream error item propagates, stream end falls
through to `Ok(())`. -/
def Producer.rpc (p : Producer) (env : BrokerEnv) (msg : List Nat) :
    Except Err Unit × List BrokerOp :=
  let pubOp := BrokerOp.basicPublish p.tx p.ex p.queue p.tx_opts msg p.rx_props
  match env.publishResult with
  | .error err => (.error err, [pubOp])
  | .ok () =>
      match env.nextDelivery with
      | none => (.ok (), [pubOp, .consumeNext p.consume])
      | some (.error err) => (.error err, [pubOp, .consumeNext p.consume])
      | some (.ok d) =>
          let r := Producer.recv p env d
          (r.1, pubOp :: .consumeNext p.consume :: r.2)

/-- Embedding of `Producer::publish`: a single `basic_publish` with the
plain (`tx_props`) properties, returning the broker's result directly. -/
def Producer.publish (p : Producer) (env : BrokerEnv) (msg : List Nat) :
    Except Err Unit × List BrokerOp :=
  (env.publishResult, [.basicPublish p.tx p.ex p.queue p.tx_opts msg p.tx_props])

/-- Embedding of `ProducerBuilder`. -/
structure ProducerBuilder where
  conn : Connection
  ex : String
  queue : String
  queue_opts : QueueDeclareOptions
  field_table : FieldTable
  tx_props : BasicProperties
  tx_opts : BasicPublishOptions
  rx_opts : BasicConsumeOptions
  ack_opts : BasicAckOptions
  extension : List Nat → Except Err Unit

/-- Embedding of `ProducerBuilder::new`: all options default, empty
exchange and queue names, `DebugPrinter` as the extension. -/
def ProducerBuilder.new (conn : Connection) : ProducerBuilder :=
  { conn
    ex := ""
    queue := ""
    queue_opts := {}
    field_table := []
    tx_props := {}
    tx_opts := {}
    rx_opts := {}
    ack_opts := {}
    extension := DebugPrinter.recv }

/-- Embedding of `ProducerBuilder::exchange`. -/
def ProducerBuilder.exchange (b : ProducerBuilder) (ex : String) : ProducerBuilder :=
  { b with ex := ex }

/-- Embedding of `ProducerBuilder::queue`. -/
def ProducerBuilder.withQueue (b : ProducerBuilder) (queue : String) : ProducerBuilder :=
  { b with queue := queue }

/-- One broker round-trip issued during `build`: `Connection::channel`
(open a channel and declare the named queue with the given options) and
`basic_consume`. -/
inductive BuildOp where
  | channel (queue : String) (opts : QueueDeclareOptions) (ft : FieldTable) : BuildOp
  | basicConsume (queue : String) (tag : String) (opts : BasicConsumeOptions) (ft : FieldTable) : BuildOp
deriving DecidableEq

/-- Broker responses for the round-trips one `build` call makes: the two
`Connection::channel` calls (target queue, then anonymous reply queue)
and the `basic_consume` call. -/
structure BuildEnv where
  txChannel : Except Err (Channel × Queue)
  rxChannel : Except Err (Channel × Queue)
  consume : Except Err Consumer

/-- Embedding of `ProducerBuilder::build`: open/declare the target queue,
then declare the anonymous (`""`) exclusive auto-delete reply queue, start
consuming it with consumer tag `"producer"`, and assemble the `Producer`;
the first failing round-trip's error is returned and no `Producer` is
produced. -/
def ProducerBuilder.build (b : ProducerBuilder) (env : BuildEnv) :
    Except Err Producer × List BuildOp :=
  let op1 := BuildOp.channel b.queue b.queue_opts b.field_table
  match env.txChannel with
  | .error err => (.error err, [op1])
  | .ok (tx, _) =>
      let opts := { b.queue_opts with exclusive := true, auto_delete := true }
      let op2 := BuildOp.channel "" opts b.field_table
      match env.rxChannel with
      | .error err => (.error err, [op1, op2])
      | .ok (rx, q) =>
          let op3 := BuildOp.basicConsume q.name "producer" b.rx_opts b.field_table
          match env.consume with
          | .error err => (.error err, [op1, op2, op3])
          | .ok c =>
              (.ok { tx := tx
                     rx := rx
                     consume := c
                     ex := b.ex
                     queue := b.queue
                     tx_props := b.tx_props
                     rx_props := b.tx_props.with_reply_to q.name
                     tx_opts := b.tx_opts
                     ack_opts := b.ack_opts
                     extension := b.extension },
               [op1, op2, op3])

/-! Embedding of `src/publish.rs`. -/

/-- Embedding of `PublisherBuilder`. -/
structure PublisherBuilder where
  conn : Connection
  ex : String
  queue : String
  queue_options : QueueDeclareOptions
  field_table : FieldTable
  properties : BasicProperties
  publish_options : BasicPublishOptions

/-- Embedding of `PublisherBuilder::new`. -/
def PublisherBuilder.new (conn : Connection) : PublisherBuilder :=
  { conn
    ex := ""
    queue := ""
    properties := {}
    publish_options := {}
    queue_options := {}
    field_table := [] }

/-- Embedding of `Publisher`. -/
structure Publisher where
  tx : Channel
  rx : Channel
  recv : Consumer
  ex : String
  queue : String
  properties : BasicProperties
  rx_props : BasicProperties
  publish_options : BasicPublishOptions
deriving DecidableEq

/-- Embedding of `PublisherBuilder::build`: same shape as
`ProducerBuilder::build`, except `basic_consume` is called with default
consume options and a default field table. -/
def PublisherBuilder.build (b : PublisherBuilder) (env : BuildEnv) :
    Except Err Publisher × List BuildOp :=
  let op1 := BuildOp.channel b.queue b.queue_options b.field_table
  match env.txChannel with
  | .error err => (.error err, [op1])
  | .ok (tx, _) =>
      let rx_opts := { b.queue_options with exclusive := true, auto_delete := true }
      let op2 := BuildOp.channel "" rx_opts b.field_table
      match env.rxChannel with
      | .error err => (.error err, [op1, op2])
      | .ok (rx, q) =>
          let op3 := BuildOp.basicConsume q.name "producer" {} []
          match env.consume with
          | .error err => (.error err, [op1, op2, op3])
          | .ok c =>
              (.ok { tx := tx
                     rx := rx
                     recv := c
                     ex := b.ex
                     queue := b.queue
                     properties := b.properties
                     rx_props := b.properties.with_reply_to q.name
                     publish_options := b.publish_options },
               [op1, op2, op3])

/-- A decoded flatbuffers message view: its `msg()` accessor yields the
optional `msg` field's bytes, `none` when the field is absent. -/
structure FbMessage where
  msg : Option (List Nat)
deriving DecidableEq

/-- Modelled from the spec: the `msg` module (`msg::get_root_as_message`,
flatbuffers-generated code for a message table with an optional `msg`
string field) is not under `src/`. Modelled as a decoder whose optional
field is present exactly when the payload encodes it (leading tag byte 1);
on any other payload the field is absent, matching flatbuffers semantics
where an optional table field missing from the buffer accesses as `None`. -/
def get_root_as_message (data : List Nat) : FbMessage :=
  match data with
  | 1 :: rest => { msg := some rest }
  | _ => { msg := none }

/-- Outcome of `Publisher::rpc`, which can panic (the `unwrap` on the
decoded message's optional field) in addition to returning a result. -/
inductive PubRpcOut where
  | ok : PubRpcOut
  | error (e : Err) : PubRpcOut
  | panicked : PubRpcOut
deriving DecidableEq

/-- Embedding of `Publisher::rpc`: `basic_publish` with the reply-to
properties, await the next delivery on the held consume stream, decode
its payload with `get_root_as_message`, `unwrap()` the optional `msg`
field (a panic when the field is absent), print it, then `basic_ack` the
delivery with default ack options. -/
def Publisher.rpc (p : Publisher) (env : BrokerEnv) (msg : List Nat) :
    PubRpcOut × List BrokerOp :=
  let pubOp := BrokerOp.basicPublish p.tx p.ex p.queue p.publish_options msg p.rx_props
  match env.publishResult with
  | .error err => (.error err, [pubOp])
  | .ok () =>
      match env.nextDelivery with
      | none => (.ok, [pubOp, .consumeNext p.recv])
      | some (.error err) => (.error err, [pubOp, .consumeNext p.recv])
      | some (.ok delivery) =>
          match (get_root_as_message delivery.data).msg with
          | none => (.panicked, [pubOp, .consumeNext p.recv])
          | some _ =>
              match env.ackResult with
              | .error err =>
                  (.error err, [pubOp, .consumeNext p.recv,
                    .basicAck p.rx delivery.delivery_tag {}])
              | .ok () =>
                  (.ok, [pubOp, .consumeNext p.recv,
                    .basicAck p.rx delivery.delivery_tag {}])

/-- Embedding of `Publisher::publish`: a single `basic_publish` with the
plain (`properties`) properties, returning the broker's result directly. -/
def Publisher.publish (p : Publisher) (env : BrokerEnv) (msg : List Nat) :
    Except Err Unit × List BrokerOp :=
  (env.publishResult, [.basicPublish p.tx p.ex p.queue p.publish_options msg p.properties])

/-! Concrete fixtures: a producer whose hook always succeeds, one whose
hook always fails, and broker environments used to run the embedded code
on concrete inputs. -/

/-- A concrete producer whose `ProducerExt` hook always returns `Ok(())`. -/
def pOk : Producer :=
  { tx := 1
    rx := 2
    consume := 3
    ex := "ex"
    queue := "q"
    tx_props := {}
    rx_props := { reply_to := some "amq.gen-1" }
    tx_opts := {}
    ack_opts := {}
    extension := fun _ => .ok () }

/-- A concrete producer whose `ProducerExt` hook always returns an error. -/
def pErr : Producer :=
  { pOk with extension := fun _ => .error ⟨9⟩ }

/-- A broker environment delivering one successful reply with the given
payload (delivery tag 5), with publish and ack succeeding. -/
def envDelivery (data : List Nat) : BrokerEnv :=
  { publishResult := .ok ()
    nextDelivery := some (.ok { delivery_tag := 5, data := data })
    ackResult := .ok () }

/-- A broker environment whose consume stream has ended (no delivery). -/
def envEnd : BrokerEnv :=
  { publishResult := .ok ()
    nextDelivery := none
    ackResult := .ok () }

/-- C1 (amended): when the publish succeeds, a delivery arrives on the
reply stream, the installed hook succeeds on its payload and the ack
succeeds, `Producer::rpc` publishes the request with the reply-to
properties, acknowledges the reply delivery, and returns the unit
success value — the reply's payload bytes go to the hook, not to the
caller. -/
theorem c1_rpc_hook_ok_acks_and_returns_unit (p : Producer) (env : BrokerEnv)
    (msg : List Nat) (d : Delivery)
    (hpub : env.publishResult = .ok ()) (hnext : env.nextDelivery = some (.ok d))
    (hhook : p.extension d.data = .ok ()) (hack : env.ackResult = .ok ()) :
    Producer.rpc p env msg =
      (.ok (), [.basicPublish p.tx p.ex p.queue p.tx_opts msg p.rx_props,
                .consumeNext p.consume,
                .basicAck p.rx d.delivery_tag p.ack_opts]) := by
  simp [Producer.rpc, Producer.recv, hpub, hnext, hhook, hack]

/-- C1 (counterexample): `Producer::rpc` does not return the reply's
payload bytes — its successful result is the unit value, and the whole
output of the call is identical for two reply deliveries with different
payloads, so the result cannot carry the reply payload. -/
theorem c1_counterexample :
    Producer.rpc pOk (envDelivery [0]) [2] = Producer.rpc pOk (envDelivery [1]) [2] ∧
    (Producer.rpc pOk (envDelivery [0]) [2]).1 = .ok () :=
  ⟨rfl, rfl⟩

/-- C1 (witness): the amended theorem evaluated on a concrete producer
and broker environment. -/
theorem c1_witness :
    Producer.rpc pOk (envDelivery [0]) [2] =
      (.ok (), [.basicPublish 1 "ex" "q" {} [2] { reply_to := some "amq.gen-1" },
                .consumeNext 3, .basicAck 2 5 {}]) :=
  c1_rpc_hook_ok_acks_and_returns_unit pOk (envDelivery [0]) [2]
    { delivery_tag := 5, data := [0] } rfl rfl rfl rfl

/-- C2 (amended): when the installed hook returns an error on the reply
delivery, `Producer::rpc` issues no broker acknowledgment of any kind
(no ack, nack or reject) for that delivery and returns the unit success
value. -/
theorem c2_hook_error_no_ack_returns_ok (p : Producer) (env : BrokerEnv)
    (msg : List Nat) (d : Delivery) (e : Err)
    (hpub : env.publishResult = .ok ()) (hnext : env.nextDelivery = some (.ok d))
    (hhook : p.extension d.data = .error e) :
    Producer.rpc p env msg =
      (.ok (), [.basicPublish p.tx p.ex p.queue p.tx_opts msg p.rx_props,
                .consumeNext p.consume]) := by
  simp [Producer.rpc, Producer.recv, hpub, hnext, hhook]

/-- C2 (counterexample): on a concrete reply delivery whose hook fails,
the call's trace contains no acknowledgment operation at all — in
particular no nack — refuting the claim that the producer
negatively-acknowledges the reply delivery. -/
theorem c2_counterexample :
    Producer.rpc pErr (envDelivery [4]) [1] =
      (.ok (), [.basicPublish 1 "ex" "q" {} [1] { reply_to := some "amq.gen-1" },
                .consumeNext 3]) ∧
    (Producer.rpc pErr (envDelivery [4]) [1]).2.filter BrokerOp.isAckKind = [] :=
  ⟨rfl, rfl⟩

/-- C2 (witness): the amended theorem evaluated on a concrete producer
whose hook fails. -/
theorem c2_witness :
    Producer.rpc pErr (envDelivery [4]) [1] =
      (.ok (), [.basicPublish 1 "ex" "q" {} [1] { reply_to := some "amq.gen-1" },
                .consumeNext 3]) :=
  c2_hook_error_no_ack_returns_ok pErr (envDelivery [4]) [1]
    { delivery_tag := 5, data := [4] } ⟨9⟩ rfl rfl rfl

/-- C4: when the publish succeeds but the consume stream ends before any
reply arrives, `Producer::rpc` returns the unit success value (an empty
successful result), not an error. -/
theorem c4_stream_end_returns_ok (p : Producer) (env : BrokerEnv) (msg : List Nat)
    (hpub : env.publishResult = .ok ()) (hnext : env.nextDelivery = none) :
    Producer.rpc p env msg =
      (.ok (), [.basicPublish p.tx p.ex p.queue p.tx_opts msg p.rx_props,
                .consumeNext p.consume]) := by
  simp [Producer.rpc, hpub, hnext]

/-- C4 (witness): the theorem evaluated on a concrete producer and an
ended stream. -/
theorem c4_witness :
    Producer.rpc pOk envEnd [3] =
      (.ok (), [.basicPublish 1 "ex" "q" {} [3] { reply_to := some "amq.gen-1" },
                .consumeNext 3]) :=
  c4_stream_end_returns_ok pOk envEnd [3] rfl rfl

/-- C3: along every path of `Producer::rpc` and of `Publisher::rpc`, at
most one broker acknowledgment operation (ack, nack or reject) is issued
for any given delivery tag — a second acknowledgment for the same tag is
never issued. -/
theorem c3_at_most_one_ack_per_tag (p : Producer) (pb : Publisher)
    (env env2 : BrokerEnv) (msg msg2 : List Nat) (tag : Nat) :
    ackOpsFor tag (Producer.rpc p env msg).2 ≤ 1 ∧
    ackOpsFor tag (Publisher.rpc pb env2 msg2).2 ≤ 1 := by
  constructor
  · rcases env with ⟨pr, nd, ar⟩
    cases pr with
    | error e => simp [Producer.rpc, ackOpsFor, BrokerOp.acksTag]
    | ok u =>
      cases u
      match nd with
      | none => simp [Producer.rpc, ackOpsFor, BrokerOp.acksTag]
      | some (.error e) => simp [Producer.rpc, ackOpsFor, BrokerOp.acksTag]
      | some (.ok d) =>
        cases hh : p.extension d.data with
        | error e2 =>
          simp [Producer.rpc, Producer.recv, hh, ackOpsFor, BrokerOp.acksTag]
        | ok u2 =>
          cases u2
          cases ar with
          | error e3 =>
            simp only [Producer.rpc, Producer.recv, hh, ackOpsFor, BrokerOp.acksTag,
              List.filter]
            split <;> simp
          | ok u3 =>
            cases u3
            simp only [Producer.rpc, Producer.recv, hh, ackOpsFor, BrokerOp.acksTag,
              List.filter]
            split <;> simp
  · rcases env2 with ⟨pr, nd, ar⟩
    cases pr with
    | error e => simp [Publisher.rpc, ackOpsFor, BrokerOp.acksTag]
    | ok u =>
      cases u
      match nd with
      | none => simp [Publisher.rpc, ackOpsFor, BrokerOp.acksTag]
      | some (.error e) => simp [Publisher.rpc, ackOpsFor, BrokerOp.acksTag]
      | some (.ok d) =>
        cases hm : (get_root_as_message d.data).msg with
        | none => simp [Publisher.rpc, hm, ackOpsFor, BrokerOp.acksTag]
        | some v =>
          cases ar with
          | error e3 =>
            simp only [Publisher.rpc, hm, ackOpsFor, BrokerOp.acksTag, List.filter]
            split <;> simp
          | ok u3 =>
            cases u3
            simp only [Publisher.rpc, hm, ackOpsFor, BrokerOp.acksTag, List.filter]
            split <;> simp

/-- Every run of `Producer::rpc` begins with a `basic_publish` carrying
the reply-to (`rx_props`) properties, whatever the broker does next. -/
theorem rpc_first_op (p : Producer) (env : BrokerEnv) (msg : List Nat) :
    (Producer.rpc p env msg).2.head? =
      some (.basicPublish p.tx p.ex p.queue p.tx_opts msg p.rx_props) := by
  rcases env with ⟨pr, nd, ar⟩
  cases pr with
  | error e => simp [Producer.rpc]
  | ok u =>
    cases u
    match nd with
    | none => simp [Producer.rpc]
    | some (.error e) => simp [Producer.rpc]
    | some (.ok d) => simp [Producer.rpc]

/-- A successfully built `Producer` keeps the builder's plain publish
properties unchanged. -/
theorem build_tx_props (b : ProducerBuilder) (env : BuildEnv) (p : Producer)
    (h : (ProducerBuilder.build b env).1 = .ok p) :
    p.tx_props = b.tx_props := by
  rcases env with ⟨txc, rxc, co⟩
  rcases txc with e | ⟨tx, q0⟩
  · simp [ProducerBuilder.build] at h
  · rcases rxc with e | ⟨rx, q⟩
    · simp [ProducerBuilder.build] at h
    · rcases co with e | c
      · simp [ProducerBuilder.build] at h
      · simp only [ProducerBuilder.build, Except.ok.injEq] at h
        subst h
        rfl

/-- The builder the `c5` and `c9` witnesses run on. -/
def b0 : ProducerBuilder :=
  ProducerBuilder.new 7

/-- A build environment in which every broker round-trip succeeds; the
anonymous reply queue is named by the broker. -/
def buildEnvOk : BuildEnv :=
  { txChannel := .ok (1, ⟨"q"⟩)
    rxChannel := .ok (2, ⟨"amq.gen-1"⟩)
    consume := .ok 3 }

/-- The producer `ProducerBuilder.build b0 buildEnvOk` constructs. -/
def p5 : Producer :=
  { tx := 1
    rx := 2
    consume := 3
    ex := ""
    queue := ""
    tx_props := {}
    rx_props := { reply_to := some "amq.gen-1" }
    tx_opts := {}
    ack_opts := {}
    extension := DebugPrinter.recv }

/-- C5: a successfully built producer's reply destination is the queue
the broker named for the anonymous (`""`) declaration — made with
`exclusive` and `auto_delete` set, exactly once in the build trace — its
consume stream is held by the producer, its name is the `reply_to` of
the producer's rpc properties, and every `rpc` call's first broker
operation is a publish carrying those reply-to properties. -/
theorem c5_reply_destination (b : ProducerBuilder) (env : BuildEnv) (p : Producer)
    (h : (ProducerBuilder.build b env).1 = .ok p) :
    ∃ txch q0 rxch q c,
      env.txChannel = .ok (txch, q0) ∧
      env.rxChannel = .ok (rxch, q) ∧
      env.consume = .ok c ∧
      p.rx_props = b.tx_props.with_reply_to q.name ∧
      p.rx_props.reply_to = some q.name ∧
      p.consume = c ∧
      (ProducerBuilder.build b env).2 =
        [.channel b.queue b.queue_opts b.field_table,
         .channel "" { b.queue_opts with exclusive := true, auto_delete := true }
           b.field_table,
         .basicConsume q.name "producer" b.rx_opts b.field_table] ∧
      ∀ env2 msg, (Producer.rpc p env2 msg).2.head? =
        some (.basicPublish p.tx p.ex p.queue p.tx_opts msg p.rx_props) := by
  rcases env with ⟨txc, rxc, co⟩
  rcases txc with e | ⟨tx, q0⟩
  · simp [ProducerBuilder.build] at h
  · rcases rxc with e | ⟨rx, q⟩
    · simp [ProducerBuilder.build] at h
    · rcases co with e | c
      · simp [ProducerBuilder.build] at h
      · simp only [ProducerBuilder.build, Except.ok.injEq] at h
        subst h
        exact ⟨tx, q0, rx, q, c, rfl, rfl, rfl, rfl, rfl, rfl, rfl,
          fun env2 msg => rpc_first_op _ env2 msg⟩

/-- C5 (witness): the theorem evaluated on a concrete builder and a
concrete all-success build environment. -/
theorem c5_witness :
    ∃ txch q0 rxch q c,
      buildEnvOk.txChannel = .ok (txch, q0) ∧
      buildEnvOk.rxChannel = .ok (rxch, q) ∧
      buildEnvOk.consume = .ok c ∧
      p5.rx_props = b0.tx_props.with_reply_to q.name ∧
      p5.rx_props.reply_to = some q.name ∧
      p5.consume = c ∧
      (ProducerBuilder.build b0 buildEnvOk).2 =
        [.channel b0.queue b0.queue_opts b0.field_table,
         .channel "" { b0.queue_opts with exclusive := true, auto_delete := true }
           b0.field_table,
         .basicConsume q.name "producer" b0.rx_opts b0.field_table] ∧
      ∀ env2 msg, (Producer.rpc p5 env2 msg).2.head? =
        some (.basicPublish p5.tx p5.ex p5.queue p5.tx_opts msg p5.rx_props) :=
  c5_reply_destination b0 buildEnvOk p5 rfl

/-- C6: every broker-capability error — a publish failure, an error item
on the consume stream, or an ack failure — becomes the error result of
the `rpc` (or `publish`) call, and the trace shows each broker operation
issued at most once, so nothing is retried. -/
theorem c6_broker_errors_propagate (p : Producer) (env : BrokerEnv)
    (msg : List Nat) (e : Err) :
    (env.publishResult = .error e →
      Producer.rpc p env msg =
        (.error e, [.basicPublish p.tx p.ex p.queue p.tx_opts msg p.rx_props]) ∧
      Producer.publish p env msg =
        (.error e, [.basicPublish p.tx p.ex p.queue p.tx_opts msg p.tx_props])) ∧
    (env.publishResult = .ok () → env.nextDelivery = some (.error e) →
      Producer.rpc p env msg =
        (.error e, [.basicPublish p.tx p.ex p.queue p.tx_opts msg p.rx_props,
                    .consumeNext p.consume])) ∧
    (∀ d, env.publishResult = .ok () → env.nextDelivery = some (.ok d) →
      p.extension d.data = .ok () → env.ackResult = .error e →
      Producer.rpc p env msg =
        (.error e, [.basicPublish p.tx p.ex p.queue p.tx_opts msg p.rx_props,
                    .consumeNext p.consume,
                    .basicAck p.rx d.delivery_tag p.ack_opts])) := by
  refine ⟨fun hpub => ⟨?_, ?_⟩, fun hpub hnext => ?_,
    fun d hpub hnext hhook hack => ?_⟩ <;>
    simp [Producer.rpc, Producer.publish, Producer.recv, *]

/-- A broker environment whose consume stream yields an error item. -/
def envStreamErr : BrokerEnv :=
  { publishResult := .ok ()
    nextDelivery := some (.error ⟨7⟩)
    ackResult := .ok () }

/-- C6 (witness): the stream-error conjunct evaluated on a concrete
producer and environment. -/
theorem c6_witness :
    Producer.rpc pOk envStreamErr [1] =
      (.error ⟨7⟩, [.basicPublish 1 "ex" "q" {} [1] { reply_to := some "amq.gen-1" },
                    .consumeNext 3]) :=
  (c6_broker_errors_propagate pOk envStreamErr [1] ⟨7⟩).2.1 rfl rfl

/-- C7: whichever build round-trip fails first — the target channel
open/declare, the reply-queue declare, or starting the consume — both
`ProducerBuilder::build` and `PublisherBuilder::build` return exactly
that error, and (by the result type) no producer/publisher value exists
in the error case: construction is all-or-nothing. -/
theorem c7_build_all_or_nothing (b : ProducerBuilder) (pb : PublisherBuilder)
    (env : BuildEnv) (e : Err) :
    (env.txChannel = .error e →
      (ProducerBuilder.build b env).1 = .error e ∧
      (PublisherBuilder.build pb env).1 = .error e) ∧
    (∀ tx q0, env.txChannel = .ok (tx, q0) → env.rxChannel = .error e →
      (ProducerBuilder.build b env).1 = .error e ∧
      (PublisherBuilder.build pb env).1 = .error e) ∧
    (∀ tx q0 rx q, env.txChannel = .ok (tx, q0) → env.rxChannel = .ok (rx, q) →
      env.consume = .error e →
      (ProducerBuilder.build b env).1 = .error e ∧
      (PublisherBuilder.build pb env).1 = .error e) := by
  refine ⟨fun h1 => ⟨?_, ?_⟩, fun tx q0 h1 h2 => ⟨?_, ?_⟩,
    fun tx q0 rx q h1 h2 h3 => ⟨?_, ?_⟩⟩ <;>
    simp [ProducerBuilder.build, PublisherBuilder.build, *]

/-- A build environment whose first round-trip (target channel) fails. -/
def buildEnvFail : BuildEnv :=
  { txChannel := .error ⟨3⟩
    rxChannel := .ok (2, ⟨"amq.gen-1"⟩)
    consume := .ok 3 }

/-- C7 (witness): the first-round-trip conjunct evaluated on concrete
builders and a failing build environment. -/
theorem c7_witness :
    (ProducerBuilder.build b0 buildEnvFail).1 = .error ⟨3⟩ ∧
    (PublisherBuilder.build (PublisherBuilder.new 7) buildEnvFail).1 = .error ⟨3⟩ :=
  (c7_build_all_or_nothing b0 (PublisherBuilder.new 7) buildEnvFail ⟨3⟩).1 rfl

/-- C8: on every message, `NoopPeeker::peek` returns success,
`RejectPeeker::peek` returns the `Reject` outcome, and
`EchoProcessor::process` returns exactly the message's payload bytes. -/
theorem c8_default_hooks (s1 : NoopPeeker) (s2 : RejectPeeker) (s3 : EchoProcessor)
    (m : Message) :
    s1.peek m = .ok () ∧ s2.peek m = .error .Reject ∧ s3.process m = .ok m.data :=
  ⟨rfl, rfl, rfl⟩

/-- C9: `Producer::publish` issues exactly one broker operation — a
`basic_publish` to the configured exchange and queue with the plain
(`tx_props`) properties — returns the broker's publish result directly,
never reads the consume stream, issues no acknowledgment, and on any
producer built from a fresh builder those plain properties carry no
reply-to metadata. -/
theorem c9_publish_fire_and_forget (p : Producer) (env : BrokerEnv) (msg : List Nat) :
    Producer.publish p env msg =
      (env.publishResult, [.basicPublish p.tx p.ex p.queue p.tx_opts msg p.tx_props]) ∧
    (Producer.publish p env msg).2.filter BrokerOp.isAckKind = [] ∧
    (∀ c, BrokerOp.consumeNext c ∉ (Producer.publish p env msg).2) ∧
    (∀ conn benv p2, (ProducerBuilder.build (ProducerBuilder.new conn) benv).1 = .ok p2 →
      p2.tx_props.reply_to = none) := by
  refine ⟨rfl, rfl, fun c => ?_, fun conn benv p2 h => ?_⟩
  · simp [Producer.publish]
  · rw [build_tx_props _ _ _ h]
    rfl

/-- C9 (witness): the publish conjunct evaluated on a concrete producer,
and the no-reply-to conjunct on a concretely built producer. -/
theorem c9_witness :
    Producer.publish pOk envEnd [4] =
      (.ok (), [.basicPublish 1 "ex" "q" {} [4] {}]) ∧
    p5.tx_props.reply_to = none :=
  ⟨(c9_publish_fire_and_forget pOk envEnd [4]).1,
   (c9_publish_fire_and_forget pOk envEnd [4]).2.2.2 7 buildEnvOk p5 rfl⟩

/-- The publisher the `c10` run uses. -/
def pub0 : Publisher :=
  { tx := 1
    rx := 2
    recv := 3
    ex := "ex"
    queue := "q"
    properties := {}
    rx_props := { reply_to := some "amq.gen-2" }
    publish_options := {} }

/-- A broker environment delivering a reply whose payload does not
encode the optional `msg` field. -/
def envBadReply : BrokerEnv :=
  { publishResult := .ok ()
    nextDelivery := some (.ok { delivery_tag := 8, data := [0] })
    ackResult := .ok () }

/-- C10: a reply payload that decodes to a message without the `msg`
field is concretely exhibited; on it `Publisher::rpc` reaches the
`unwrap` panic — before issuing any acknowledgment — instead of
returning an error. -/
theorem c10_unwrap_panic_reachable :
    (get_root_as_message [0]).msg = none ∧
    Publisher.rpc pub0 envBadReply [1] =
      (.panicked, [.basicPublish 1 "ex" "q" {} [1] { reply_to := some "amq.gen-2" },
                   .consumeNext 3]) ∧
    (Publisher.rpc pub0 envBadReply [1]).2.filter BrokerOp.isAckKind = [] :=
  ⟨rfl, rfl, rfl⟩

end AsyncMq
